import Mathlib

/-!
Verification development for the LLM consensus-benchmark repository.

The embedded code comes from two places:
* the `ConsensusAnalyzer` class (text normalization, Levenshtein
  similarity, greedy grouping, metrics, insight generation), and
* the `OpenRouterClient` / `VercelAIGatewayClient` classes
  (per-model completion handling and chunked batch completion).

Texts are modelled as `String`, similarity scores as exact rationals
(the JavaScript source computes them as IEEE doubles; at all values
reachable in the claims below, in particular at the 0.8 threshold with
ratio exactly 1/5, the double computation agrees with the rational one).
Network effects are modelled by passing the gateway's behaviour as an
explicit function/value argument.
-/

namespace BmarkApp

/-- ASCII fragment of `String.prototype.toLowerCase`, as used by
`ConsensusAnalyzer.normalizeText` (`text.toLowerCase()`). -/
def jsToLower (c : Char) : Char :=
  if 65 ≤ c.toNat ∧ c.toNat ≤ 90 then Char.ofNat (c.toNat + 32) else c

/-- The whitespace class `\s` of JavaScript regexes (ASCII fragment:
space, tab, newline, carriage return, vertical tab, form feed). -/
def jsIsSpace (c : Char) : Bool :=
  c == ' ' || c == '\t' || c == '\n' || c == '\r' || c.toNat == 11 || c.toNat == 12

/-- The word-character class `\w` of JavaScript regexes:
`[A-Za-z0-9_]`. -/
def jsIsWordChar (c : Char) : Bool :=
  (97 ≤ c.toNat && c.toNat ≤ 122) || (65 ≤ c.toNat && c.toNat ≤ 90) ||
    (48 ≤ c.toNat && c.toNat ≤ 57) || c == '_'

/-- `String.prototype.trim` on a character list: strip leading and
trailing whitespace. -/
def jsTrimList (l : List Char) : List Char :=
  ((l.dropWhile jsIsSpace).reverse.dropWhile jsIsSpace).reverse

/-- `String.prototype.trim`. -/
def jsTrim (s : String) : String :=
  ⟨jsTrimList s.data⟩

/-- `.replace(/\s+/g, ' ')` as a left-to-right scan: each maximal run of
whitespace characters is replaced by a single space. The flag records
whether the scanner is inside a whitespace run whose space has already
been emitted. -/
def collapseWsAux : Bool → List Char → List Char
  | _, [] => []
  | true, c :: cs =>
    if jsIsSpace c then collapseWsAux true cs else c :: collapseWsAux false cs
  | false, c :: cs =>
    if jsIsSpace c then ' ' :: collapseWsAux true cs else c :: collapseWsAux false cs

/-- `.replace(/\s+/g, ' ')`: collapse every maximal run of whitespace
characters into a single space. -/
def collapseWs (l : List Char) : List Char :=
  collapseWsAux false l

/-- `ConsensusAnalyzer.normalizeText`: lowercase, trim, remove
punctuation (`[^\w\s]`), collapse whitespace runs to single spaces. -/
def normalizeText (text : String) : String :=
  ⟨collapseWs ((jsTrimList (text.data.map jsToLower)).filter
    (fun c => jsIsWordChar c || jsIsSpace c))⟩

/-- Entries `1..n` of row `j` of the Levenshtein matrix of
`ConsensusAnalyzer.levenshteinDistance`, given the characters of `str1`
still to process, the tail of row `j-1` starting at position `i-1`
(`p0 :: p1 :: _`), the entry `cur` at position `i-1` of the row being
built, and the current character `y = str2[j-1]`. Each entry is
`min(deletion, insertion, substitution)` exactly as in the source:
`matrix[j][i-1] + 1`, `matrix[j-1][i] + 1`, `matrix[j-1][i-1] +
indicator`, with `indicator = 0` exactly on equal characters. -/
def levNextRow (y : Char) : List Char → List Nat → Nat → List Nat
  | [], _, _ => []
  | _ :: _, [], _ => []
  | _ :: _, [_], _ => []
  | x :: xs, p0 :: p1 :: ps, cur =>
    let indicator := if x = y then 0 else 1
    let v := min (cur + 1) (min (p1 + 1) (p0 + indicator))
    v :: levNextRow y xs (p1 :: ps) v

/-- The rows of the Levenshtein matrix, computed top to bottom: from row
`j-1` (`prev`), row `j` starts with `matrix[j][0] = j` and continues
with `levNextRow`. Returns the final row. -/
def levRows (str1 : List Char) : List Char → List Nat → List Nat
  | [], prev => prev
  | y :: ys, prev =>
    let first := prev.headD 0 + 1
    levRows str1 ys (first :: levNextRow y str1 prev first)

/-- `ConsensusAnalyzer.levenshteinDistance`: build the
dynamic-programming matrix row by row, starting from row 0
(`matrix[0][i] = i`), and return `matrix[str2.length][str1.length]`,
the last entry of the last row. -/
def levenshteinDistance (str1 str2 : List Char) : Nat :=
  (levRows str1 str2 (List.range (str1.length + 1))).getLastD 0

/-- `ConsensusAnalyzer.calculateSimilarity`: normalize both texts again,
short-circuit equal strings to 1.0, otherwise
`1 - distance / maxLength` (and 1.0 when both are empty). -/
def calculateSimilarity (text1 text2 : String) : ℚ :=
  let normalized1 := normalizeText text1
  let normalized2 := normalizeText text2
  if normalized1 = normalized2 then 1
  else
    let distance := levenshteinDistance normalized1.data normalized2.data
    let maxLength := max normalized1.length normalized2.length
    if maxLength = 0 then 1 else 1 - (distance : ℚ) / (maxLength : ℚ)

/-- `ConsensusAnalyzer.SIMILARITY_THRESHOLD`. -/
def SIMILARITY_THRESHOLD : ℚ := 0.8

/-- `ConsensusAnalyzer.COLORS`. -/
def COLORS : List String :=
  ["#3B82F6", "#EF4444", "#10B981", "#F59E0B", "#8B5CF6",
   "#F97316", "#06B6D4", "#84CC16", "#EC4899", "#6B7280"]

/-- The optional `model` field of a `Response` (`{name, provider}`). -/
structure ModelInfo where
  name : String
  provider : String
deriving DecidableEq, Repr

/-- The `Response` interface of the consensus module. -/
structure Response where
  id : String
  model_id : String
  response_text : String
  response_time_ms : Nat
  model : Option ModelInfo
deriving DecidableEq, Repr

/-- The `ConsensusGroup` interface. -/
structure ConsensusGroup where
  groupName : String
  count : Nat
  percentage : ℚ
  color : String
  models : List String
  responses : List Response
deriving DecidableEq, Repr

/-- The `ConsensusAnalysis` interface. -/
structure ConsensusAnalysis where
  groups : List ConsensusGroup
  totalResponses : Nat
  consensusLevel : ℚ
  diversity : ℚ
  topResponse : String
deriving DecidableEq, Repr

/-- The fresh group created in `groupSimilarResponses` when no existing
group reaches the threshold (count 0, fields empty). -/
def newGroup (normalizedText : String) : ConsensusGroup :=
  { groupName := normalizedText, count := 0, percentage := 0,
    color := "", models := [], responses := [] }

/-- The mutation applied to the chosen group: `group.count++`,
`group.responses.push(response)`, and push `response.model.name` when a
model is attached. -/
def pushToGroup (g : ConsensusGroup) (r : Response) : ConsensusGroup :=
  { g with
    count := g.count + 1
    responses := g.responses ++ [r]
    models := g.models ++ (match r.model with
      | some m => [m.name]
      | none => []) }

/-- One step of the grouping loop: `groups.find` scans groups in creation
order for the first whose similarity with the incoming normalized text
reaches the threshold; if none qualifies a new group is appended, and the
response is pushed onto the chosen group. -/
def insertIntoGroups : List ConsensusGroup → Response → String → List ConsensusGroup
  | [], r, normalizedText => [pushToGroup (newGroup normalizedText) r]
  | g :: gs, r, normalizedText =>
    if calculateSimilarity g.groupName normalizedText ≥ SIMILARITY_THRESHOLD then
      pushToGroup g r :: gs
    else
      g :: insertIntoGroups gs r normalizedText

/-- `ConsensusAnalyzer.groupSimilarResponses`: fold the responses in input
order through the grouping step, then fill in each group's percentage
`(count / total) * 100`. -/
def groupSimilarResponses (responses : List Response) : List ConsensusGroup :=
  let groups := responses.foldl
    (fun gs r => insertIntoGroups gs r (normalizeText r.response_text)) []
  groups.map (fun g =>
    { g with percentage := ((g.count : ℚ) / (responses.length : ℚ)) * 100 })

/-- The stable descending-by-count insertion used to model
`groups.sort((a, b) => b.count - a.count)` (JavaScript `Array.sort` is
stable; an element moves past exactly the strictly larger counts, so
equal counts keep their original relative order). -/
def insertByCountDesc (g : ConsensusGroup) : List ConsensusGroup → List ConsensusGroup
  | [] => [g]
  | h :: t => if g.count < h.count then h :: insertByCountDesc g t else g :: h :: t

/-- Stable sort of the groups by count, descending. -/
def sortByCountDesc (l : List ConsensusGroup) : List ConsensusGroup :=
  l.foldr insertByCountDesc []

/-- `groups.forEach((group, index) => group.color = COLORS[index % COLORS.length])`. -/
def assignColors (groups : List ConsensusGroup) : List ConsensusGroup :=
  groups.enum.map (fun p => { p.2 with color := COLORS.getD (p.1 % COLORS.length) "" })

/-- `ConsensusAnalyzer.analyzeConsensus`. -/
def analyzeConsensus (responses : List Response) : ConsensusAnalysis :=
  if responses.length = 0 then
    { groups := [], totalResponses := 0, consensusLevel := 0,
      diversity := 0, topResponse := "" }
  else
    let groups := assignColors (sortByCountDesc (groupSimilarResponses responses))
    let totalResponses := responses.length
    let consensusLevel : ℚ :=
      match groups with
      | [] => 0
      | g :: _ => ((g.count : ℚ) / (totalResponses : ℚ)) * 100
    let diversity : ℚ := (groups.length : ℚ) / (totalResponses : ℚ)
    let topResponse :=
      match groups with
      | [] => ""
      | g :: _ => g.groupName
    { groups := groups, totalResponses := totalResponses,
      consensusLevel := consensusLevel, diversity := diversity,
      topResponse := topResponse }

/-- `Number.prototype.toFixed(1)` on the nonnegative rationals produced by
the analyzer: round to the nearest tenth and print one decimal digit
(all values formatted in the theorems below are exact tenths, where the
JavaScript double computation agrees). -/
def ratToFixed1 (q : ℚ) : String :=
  let n : Int := round (q * 10)
  toString (n / 10) ++ "." ++ toString (n % 10)

/-- Scanner for `[...new Set(l)]`: keep an element exactly when it has
not been seen before. -/
def dedupFirstAux (seen : List String) : List String → List String
  | [] => []
  | x :: xs =>
    if seen.contains x then dedupFirstAux seen xs
    else x :: dedupFirstAux (seen ++ [x]) xs

/-- `[...new Set(l)]`: deduplicate, keeping first occurrences in order. -/
def dedupFirst (l : List String) : List String :=
  dedupFirstAux [] l

/-- `ConsensusAnalyzer.generateInsights`. -/
def generateInsights (analysis : ConsensusAnalysis) : List String :=
  let groups := analysis.groups
  let totalResponses := analysis.totalResponses
  let consensusLevel := analysis.consensusLevel
  let diversity := analysis.diversity
  if totalResponses = 0 then
    ["No responses to analyze."]
  else
    let consensusInsight :=
      if consensusLevel ≥ 80 then
        "Strong consensus: " ++ ratToFixed1 consensusLevel ++
          "% of models agreed on \"" ++ analysis.topResponse ++ "\"."
      else if consensusLevel ≥ 60 then
        "Moderate consensus: " ++ ratToFixed1 consensusLevel ++
          "% of models agreed on \"" ++ analysis.topResponse ++ "\"."
      else if consensusLevel ≥ 40 then
        "Weak consensus: Only " ++ ratToFixed1 consensusLevel ++
          "% of models agreed on \"" ++ analysis.topResponse ++ "\"."
      else
        "No clear consensus: Responses were highly diverse with the top response only getting " ++
          ratToFixed1 consensusLevel ++ "% agreement."
    let diversityInsight :=
      if diversity ≥ 0.8 then
        "Very high diversity: Most models gave different responses."
      else if diversity ≥ 0.6 then
        "High diversity: Many different responses were given."
      else if diversity ≥ 0.4 then
        "Moderate diversity: Some variation in responses."
      else
        "Low diversity: Models tended to give similar responses."
    let closeInsights :=
      match groups with
      | g0 :: g1 :: _ =>
        if g0.percentage - g1.percentage < 10 then
          ["Close competition: \"" ++ g0.groupName ++ "\" (" ++
            ratToFixed1 g0.percentage ++ "%) barely edged out \"" ++
            g1.groupName ++ "\" (" ++ ratToFixed1 g1.percentage ++ "%)."]
        else []
      | _ => []
    let providerInsights :=
      match groups with
      | [] => []
      | topGroup :: _ =>
        let providers := (topGroup.responses.filterMap
          (fun r => r.model.map (fun m => m.provider))).filter (fun s => s ≠ "")
        let uniqueProviders := dedupFirst providers
        if uniqueProviders.length = 1 then
          ["Provider bias: All models agreeing on \"" ++ topGroup.groupName ++
            "\" were from " ++ uniqueProviders.headD "" ++ "."]
        else if uniqueProviders.length ≥ 3 then
          ["Cross-provider agreement: Models from " ++
            toString uniqueProviders.length ++
            " different providers agreed on \"" ++ topGroup.groupName ++ "\"."]
        else []
    [consensusInsight, diversityInsight] ++ closeInsights ++ providerInsights

/-!
Claim-side description of the grouping rule, used for the refinement
claim about `groupSimilarResponses`. A spec group is the pair of its
representative name and its member responses in assignment order.
-/

/-- Similarity as the claim words it: `1 - editDistance / max(len, len)`
applied directly to the two given (already normalized) strings, and `1.0`
when both strings are empty. -/
def claimSimilarity (a b : String) : ℚ :=
  if a = "" ∧ b = "" then 1
  else 1 - (levenshteinDistance a.data b.data : ℚ) / ((max a.length b.length : ℕ) : ℚ)

/-- One step of the claim's assignment rule, parameterized by the
similarity function: scan the groups in creation order and append the
response to the first whose representative name is at least
0.8-similar to the response's normalized text; otherwise create a new
group whose representative name is that normalized text. -/
def claimAssignWith (sim : String → String → ℚ) :
    List (String × List Response) → Response → String → List (String × List Response)
  | [], r, normalizedText => [(normalizedText, [r])]
  | g :: gs, r, normalizedText =>
    if sim g.1 normalizedText ≥ 0.8 then
      (g.1, g.2 ++ [r]) :: gs
    else
      g :: claimAssignWith sim gs r normalizedText

/-- The claim's grouping of a response sequence, parameterized by the
similarity function. -/
def claimGroupsWith (sim : String → String → ℚ) (responses : List Response) :
    List (String × List Response) :=
  responses.foldl (fun gs r => claimAssignWith sim gs r (normalizeText r.response_text)) []

/-- The claim's grouping with its own similarity formula. -/
def claimGroups (responses : List Response) : List (String × List Response) :=
  claimGroupsWith claimSimilarity responses

/-!
Embedding of the gateway clients (`OpenRouterClient` in the unnamed
source file and `VercelAIGatewayClient` in `src/lib/vercel-ai-gateway.ts`).

A per-model completion interaction is modelled by passing the gateway's
behaviour explicitly; a thrown/rejected JavaScript error is an
`Except.error` carrying the message string.
-/

/-- The `usage` object of a gateway completion response. -/
structure Usage where
  prompt_tokens : Nat
  completion_tokens : Nat
  total_tokens : Nat
deriving DecidableEq, Repr

/-- The success value of `getCompletion`: `{text, timeMs, usage}`. -/
structure CompletionResult where
  text : String
  timeMs : Nat
  usage : Option Usage
deriving DecidableEq, Repr

/-- One element of the batch result array:
`{modelId, result?, error?}`. -/
structure BatchOutcome where
  modelId : String
  result : Option CompletionResult
  error : Option String
deriving DecidableEq, Repr

/-- The options bag accepted by `getCompletion` / `batchCompletion`
(`maxTokens`, `temperature`, `systemPrompt`, `timeout`, `concurrency`,
all optional; `none` models a JavaScript `undefined`, which lets the
destructuring default apply). -/
structure CompletionOptions where
  maxTokens : Option Nat
  temperature : Option ℚ
  systemPrompt : Option String
  timeout : Option Nat
  concurrency : Option Nat
deriving DecidableEq, Repr

/-- The empty options bag `{}`. -/
def CompletionOptions.empty : CompletionOptions :=
  { maxTokens := none, temperature := none, systemPrompt := none,
    timeout := none, concurrency := none }

/-- The default system prompt of both clients. -/
def defaultSystemPrompt : String :=
  "You are a helpful assistant. Please provide a clear, concise response to the user's question."

/-- A `{role, content}` chat message of the OpenRouter request body. -/
structure ChatMessage where
  role : String
  content : String
deriving DecidableEq, Repr

/-- The JSON body of the single `fetch` to `/chat/completions` issued by
`OpenRouterClient.getCompletion`. -/
structure OpenRouterRequestBody where
  model : String
  messages : List ChatMessage
  max_tokens : Nat
  temperature : ℚ
  stream : Bool
deriving DecidableEq, Repr

/-- The argument object of the single `generateText` call issued by
`VercelAIGatewayClient.getCompletion` (`timeoutMs` is the
`AbortSignal.timeout` bound). -/
structure GenerateTextArgs where
  model : String
  system : String
  prompt : String
  temperature : ℚ
  maxRetries : Nat
  timeoutMs : Nat
deriving DecidableEq, Repr

namespace OpenRouterClient

/-- The `message` of a completion choice; `content` is optional in the
source access `choices[0].message.content?`. -/
structure ChoiceMessage where
  role : String
  content : Option String
deriving DecidableEq, Repr

/-- One element of `choices`. -/
structure Choice where
  index : Nat
  message : ChoiceMessage
  finish_reason : String
deriving DecidableEq, Repr

/-- The parsed JSON of a successful gateway response
(`CompletionResponse` in the source, fields the client reads). -/
structure CompletionResponse where
  choices : List Choice
  usage : Usage
deriving DecidableEq, Repr

/-- How the awaited `fetch` inside `OpenRouterClient.getCompletion` can
end: an OK response with parsed JSON, a non-success HTTP status with the
extracted error message, an abort fired by the timeout timer, or any
other thrown/rejected error. -/
inductive FetchResult where
  | success (status : Nat) (data : CompletionResponse)
  | httpError (status : Nat) (errorMessage : String)
  | abort
  | failure (msg : String)
deriving DecidableEq, Repr

/-- The gateway-request trace of `OpenRouterClient.getCompletion`: the
function body contains a single `fetch` with this body and no loop, so
exactly one request is issued per call. -/
def completionRequests (modelId prompt : String) (o : CompletionOptions) :
    List OpenRouterRequestBody :=
  [{ model := modelId,
     messages := [⟨"system", o.systemPrompt.getD defaultSystemPrompt⟩,
                  ⟨"user", prompt⟩],
     max_tokens := o.maxTokens.getD 50,
     temperature := o.temperature.getD 0.7,
     stream := false }]

/-- The result of `OpenRouterClient.getCompletion` as a function of the
fetch outcome and the measured elapsed time: the `try` block throws on a
non-OK status, on an empty `choices` array and on missing/empty trimmed
content; the `catch` block maps an abort to a timeout message and wraps
every other thrown message in a `Failed to get completion:` prefix. -/
def getCompletion (timeoutMs elapsedMs : Nat) (f : FetchResult) :
    Except String CompletionResult :=
  match f with
  | .abort => .error ("Request timeout after " ++ toString timeoutMs ++ "ms")
  | .failure msg => .error ("Failed to get completion: " ++ msg)
  | .httpError status errorMessage =>
    .error ("Failed to get completion: OpenRouter API error (" ++
      toString status ++ "): " ++ errorMessage)
  | .success _ data =>
    match data.choices with
    | [] => .error "Failed to get completion: No response choices returned from OpenRouter"
    | c :: _ =>
      match c.message.content with
      | none => .error "Failed to get completion: Empty response from model"
      | some content =>
        let t := jsTrim content
        if t = "" then .error "Failed to get completion: Empty response from model"
        else .ok { text := t, timeMs := elapsedMs, usage := some data.usage }

end OpenRouterClient

namespace VercelAIGatewayClient

/-- How the awaited `generateText` call inside
`VercelAIGatewayClient.getCompletion` can end: a result object, an abort
fired by `AbortSignal.timeout`, or any other thrown/rejected error. -/
inductive GenerateTextResult where
  | success (text : String) (usage : Option Usage)
  | abort
  | failure (msg : String)
deriving DecidableEq, Repr

/-- The gateway-call trace of `VercelAIGatewayClient.getCompletion`: the
function body contains a single `generateText` call with these arguments
and no loop; `maxRetries` is hard-coded to 3. -/
def generateTextCalls (modelId prompt : String) (o : CompletionOptions) :
    List GenerateTextArgs :=
  [{ model := modelId,
     system := o.systemPrompt.getD defaultSystemPrompt,
     prompt := prompt,
     temperature := o.temperature.getD 0.7,
     maxRetries := 3,
     timeoutMs := o.timeout.getD 30000 }]

/-- The result of `VercelAIGatewayClient.getCompletion` as a function of
the client's API key, the `generateText` outcome and the measured
elapsed time: an empty/whitespace API key throws, an abort becomes a
timeout message, other thrown messages get the
`Failed to get completion:` prefix, and a returned result is passed
through as success with its text unchecked. -/
def getCompletion (apiKey : String) (timeoutMs elapsedMs : Nat)
    (r : GenerateTextResult) : Except String CompletionResult :=
  if jsTrim apiKey = "" then
    .error "Failed to get completion: Vercel AI Gateway API key is required"
  else
    match r with
    | .abort => .error ("Request timeout after " ++ toString timeoutMs ++ "ms")
    | .failure msg => .error ("Failed to get completion: " ++ msg)
    | .success text usage => .ok { text := text, timeMs := elapsedMs, usage := usage }

end VercelAIGatewayClient

/-- Splitting of `modelIds` into consecutive chunks of size
`concurrency`, as done by the `for (let i = 0; i < modelIds.length;
i += concurrency)` loop with `modelIds.slice(i, i + concurrency)`.
(The source loop does not terminate for a zero step; the zero case
below is a totality guard never reached by the claims, which take a
positive concurrency.) -/
def chunkList (c : Nat) : List String → List (List String)
  | [] => []
  | a :: l =>
    match c with
    | 0 => [a :: l]
    | Nat.succ c' => (a :: l).take (c' + 1) :: chunkList (c' + 1) ((a :: l).drop (c' + 1))
termination_by l => l.length
decreasing_by
  simp only [List.drop_succ_cons, List.length_cons, List.length_drop]
  omega

/-- The per-model `try`/`catch` inside the batch loop of both clients: a
resolved completion becomes `{modelId, result}`, a thrown error becomes
`{modelId, error}` with the error's message string. -/
def toBatchOutcome (modelId : String) (r : Except String CompletionResult) :
    BatchOutcome :=
  match r with
  | .ok result => { modelId := modelId, result := some result, error := none }
  | .error msg => { modelId := modelId, result := none, error := some msg }

/-- `OpenRouterClient.batchCompletion` with the per-model completion
behaviour `g` standing for `this.getCompletion(modelId, prompt,
options)`: resolve `concurrency` (default 5), process the model ids in
consecutive chunks, settle every member of a chunk and append the
chunk's outcomes to the accumulated results before advancing (the
100 ms inter-chunk `setTimeout` pause affects timing only, not the
returned value). -/
def OpenRouterClient.batchCompletion (g : String → Except String CompletionResult)
    (modelIds : List String) (options : CompletionOptions) : List BatchOutcome :=
  let concurrency := options.concurrency.getD 5
  (chunkList concurrency modelIds).foldl
    (fun results batch => results ++ batch.map (fun modelId => toBatchOutcome modelId (g modelId)))
    []

/-- `VercelAIGatewayClient.batchCompletion`, whose source is identical to
the OpenRouter one: resolve `concurrency` (default 5), process the model
ids in consecutive chunks, settle each chunk fully before advancing,
with the same 100 ms pause between chunks. -/
def VercelAIGatewayClient.batchCompletion (g : String → Except String CompletionResult)
    (modelIds : List String) (options : CompletionOptions) : List BatchOutcome :=
  let concurrency := options.concurrency.getD 5
  (chunkList concurrency modelIds).foldl
    (fun results batch => results ++ batch.map (fun modelId => toBatchOutcome modelId (g modelId)))
    []

/-- The four-response example of the specification:
`["Paris", "paris", "Paris!", "Lyon"]`. -/
def parisResponses : List Response :=
  [⟨"1", "m1", "Paris", 10, none⟩, ⟨"2", "m2", "paris", 10, none⟩,
   ⟨"3", "m3", "Paris!", 10, none⟩, ⟨"4", "m4", "Lyon", 10, none⟩]

/-!  Helper lemmas about the batch pipeline. -/

theorem chunkList_flatten (c : Nat) (l : List String) : (chunkList c l).flatten = l := by
  induction c, l using chunkList.induct with
  | case1 c => simp [chunkList]
  | case2 a l => simp [chunkList]
  | case3 a l c' ih =>
    simp only [chunkList, List.flatten]
    rw [ih]
    exact List.take_append_drop _ _

theorem foldl_append_chunks (f : String → BatchOutcome)
    (chunks : List (List String)) (acc : List BatchOutcome) :
    chunks.foldl (fun results batch => results ++ batch.map f) acc =
      acc ++ chunks.flatten.map f := by
  induction chunks generalizing acc with
  | nil => simp
  | cons b bs ih => simp [List.foldl, ih, List.append_assoc]

theorem toBatchOutcome_modelId (m : String) (r : Except String CompletionResult) :
    (toBatchOutcome m r).modelId = m := by
  cases r <;> rfl

/-- Both batch functions compute the per-model outcome map in input
order, for every concurrency value. -/
theorem openRouter_batch_eq_map (g : String → Except String CompletionResult)
    (modelIds : List String) (o : CompletionOptions) :
    OpenRouterClient.batchCompletion g modelIds o =
      modelIds.map (fun m => toBatchOutcome m (g m)) := by
  unfold OpenRouterClient.batchCompletion
  rw [foldl_append_chunks, chunkList_flatten]
  rfl

theorem vercel_batch_eq_map (g : String → Except String CompletionResult)
    (modelIds : List String) (o : CompletionOptions) :
    VercelAIGatewayClient.batchCompletion g modelIds o =
      modelIds.map (fun m => toBatchOutcome m (g m)) := by
  unfold VercelAIGatewayClient.batchCompletion
  rw [foldl_append_chunks, chunkList_flatten]
  rfl

/-- C2: For every per-model completion behaviour, options bag and
`modelIds` input, both clients' `batchCompletion` return one outcome per
requested model id, in input order (`outcome[i].modelId = modelIds[i]`),
and every outcome has exactly one of `result` / `error` set. -/
theorem batch_outcome_shape (g : String → Except String CompletionResult)
    (modelIds : List String) (o : CompletionOptions) :
    ((OpenRouterClient.batchCompletion g modelIds o).map (fun oc => oc.modelId) = modelIds ∧
      (OpenRouterClient.batchCompletion g modelIds o).length = modelIds.length ∧
      (OpenRouterClient.batchCompletion g modelIds o).all
        (fun oc => oc.result.isSome ^^ oc.error.isSome) = true) ∧
    ((VercelAIGatewayClient.batchCompletion g modelIds o).map (fun oc => oc.modelId) = modelIds ∧
      (VercelAIGatewayClient.batchCompletion g modelIds o).length = modelIds.length ∧
      (VercelAIGatewayClient.batchCompletion g modelIds o).all
        (fun oc => oc.result.isSome ^^ oc.error.isSome) = true) := by
  have hmap : ∀ bc : List BatchOutcome, bc = modelIds.map (fun m => toBatchOutcome m (g m)) →
      bc.map (fun oc => oc.modelId) = modelIds ∧ bc.length = modelIds.length ∧
        bc.all (fun oc => oc.result.isSome ^^ oc.error.isSome) = true := by
    intro bc hbc
    subst hbc
    refine ⟨?_, by simp, ?_⟩
    · simp [List.map_map, Function.comp_def, toBatchOutcome_modelId]
    · rw [List.all_eq_true]
      intro oc hoc
      obtain ⟨m, _, rfl⟩ := List.mem_map.mp hoc
      cases g m <;> rfl
  exact ⟨hmap _ (openRouter_batch_eq_map g modelIds o),
    hmap _ (vercel_batch_eq_map g modelIds o)⟩

/-- C10: The two clients' `batchCompletion` implementations denote the
same function: given the same per-model completion behaviour, model ids
and options (so the same resolved concurrency, the same chunking and the
same settle-then-advance order), they return identical outcome
sequences. -/
theorem batch_implementations_agree (g : String → Except String CompletionResult)
    (modelIds : List String) (o : CompletionOptions) :
    OpenRouterClient.batchCompletion g modelIds o =
      VercelAIGatewayClient.batchCompletion g modelIds o := rfl

/-- C4: failure isolation of `batchCompletion`. The batch always returns
one outcome per requested model; a model whose completion throws gets
that error message as its outcome, and a model on which two behaviours
agree gets the same outcome under both — so failing models never change
the outcomes of the other models. -/
theorem batch_failure_isolation (g g' : String → Except String CompletionResult)
    (modelIds : List String) (o : CompletionOptions) (i : Nat) (m : String)
    (h : modelIds[i]? = some m) :
    ((OpenRouterClient.batchCompletion g modelIds o).length = modelIds.length ∧
      (VercelAIGatewayClient.batchCompletion g modelIds o).length = modelIds.length) ∧
    (∀ e, g m = .error e →
      (OpenRouterClient.batchCompletion g modelIds o)[i]? =
          some { modelId := m, result := none, error := some e } ∧
        (VercelAIGatewayClient.batchCompletion g modelIds o)[i]? =
          some { modelId := m, result := none, error := some e }) ∧
    (g m = g' m →
      (OpenRouterClient.batchCompletion g modelIds o)[i]? =
          (OpenRouterClient.batchCompletion g' modelIds o)[i]? ∧
        (VercelAIGatewayClient.batchCompletion g modelIds o)[i]? =
          (VercelAIGatewayClient.batchCompletion g' modelIds o)[i]?) := by
  rw [openRouter_batch_eq_map, vercel_batch_eq_map, openRouter_batch_eq_map,
    vercel_batch_eq_map]
  refine ⟨⟨by simp, by simp⟩, ?_, ?_⟩
  · intro e he
    constructor <;>
      simp [List.getElem?_map, h, toBatchOutcome, he]
  · intro hgg
    constructor <;>
      simp [List.getElem?_map, h, hgg]

/-- Witness for C4 at a concrete batch: with models `["a", "b", "c"]`
where only `"b"` throws, `"b"`'s outcome carries the error and `"a"`'s
outcome equals the outcome it has when no model throws. -/
theorem batch_failure_isolation_witness :
    ((OpenRouterClient.batchCompletion
        (fun m => if m == "b" then .error "boom" else .ok ⟨"fine", 1, none⟩)
        ["a", "b", "c"] CompletionOptions.empty)[1]? =
      some { modelId := "b", result := none, error := some "boom" }) ∧
    ((OpenRouterClient.batchCompletion
        (fun m => if m == "b" then .error "boom" else .ok ⟨"fine", 1, none⟩)
        ["a", "b", "c"] CompletionOptions.empty)[0]? =
      (OpenRouterClient.batchCompletion (fun _ => .ok ⟨"fine", 1, none⟩)
        ["a", "b", "c"] CompletionOptions.empty)[0]?) := by
  have h1 := batch_failure_isolation
    (fun m => if m == "b" then .error "boom" else .ok ⟨"fine", 1, none⟩)
    (fun _ => .ok ⟨"fine", 1, none⟩) ["a", "b", "c"] CompletionOptions.empty 1 "b" (by rfl)
  have h0 := batch_failure_isolation
    (fun m => if m == "b" then .error "boom" else .ok ⟨"fine", 1, none⟩)
    (fun _ => .ok ⟨"fine", 1, none⟩) ["a", "b", "c"] CompletionOptions.empty 0 "a" (by rfl)
  exact ⟨(h1.2.1 "boom" (by rfl)).1, (h0.2.2 (by rfl)).1⟩

/-- C9 counterexample: on the empty model list, `batchCompletion` of both
clients returns the empty outcome list normally — it does not surface
any hard failure (the claim asserts a hard failure is surfaced; the
source contains no empty-input validation and no throw). -/
theorem empty_modelIds_counterexample :
    OpenRouterClient.batchCompletion (fun _ => .ok ⟨"fine", 1, none⟩) []
        CompletionOptions.empty = [] ∧
      VercelAIGatewayClient.batchCompletion (fun _ => .ok ⟨"fine", 1, none⟩) []
        CompletionOptions.empty = [] := by
  refine ⟨?_, ?_⟩
  · rw [openRouter_batch_eq_map]
    rfl
  · rw [vercel_batch_eq_map]
    rfl

/-- C9 amended: for every completion behaviour and options bag, both
clients' `batchCompletion` on the empty model list silently return the
empty outcome list (zero per-model outcomes, no failure); empty-input
validation is left to the caller. -/
theorem empty_modelIds_amended (g : String → Except String CompletionResult)
    (o : CompletionOptions) :
    OpenRouterClient.batchCompletion g [] o = [] ∧
      VercelAIGatewayClient.batchCompletion g [] o = [] := by
  refine ⟨?_, ?_⟩
  · rw [openRouter_batch_eq_map]
    rfl
  · rw [vercel_batch_eq_map]
    rfl

/-!
Concrete evaluations. The arithmetic of `ℚ` is `@[irreducible]` in the
ambient library, which blocks only the `decide` elaborator, not the
kernel; the theorems of this section restore reducibility locally so the
embedded functions can be evaluated on concrete inputs.
-/

section

attribute [local semireducible] Rat.mul Rat.add Rat.sub Rat.inv Rat.ofScientific

/-- C7: On `["Paris", "paris", "Paris!", "Lyon"]`, normalization
collapses the first three texts to `"paris"`, the analyzer produces
exactly the groups (`"paris"`, count 3, 75%) and (`"lyon"`, count 1,
25%), the consensus level is 75, and the first generated insight is the
`Moderate consensus` one (the 60–80 band applies at exactly 75). -/
theorem paris_example :
    (normalizeText "Paris" = "paris" ∧ normalizeText "paris" = "paris" ∧
      normalizeText "Paris!" = "paris" ∧ normalizeText "Lyon" = "lyon") ∧
    (analyzeConsensus parisResponses).groups.map
        (fun g => (g.groupName, g.count, g.percentage)) =
      [("paris", 3, (75 : ℚ)), ("lyon", 1, (25 : ℚ))] ∧
    (analyzeConsensus parisResponses).consensusLevel = 75 ∧
    (generateInsights (analyzeConsensus parisResponses)).head? =
      some "Moderate consensus: 75.0% of models agreed on \"paris\"." := by
  decide

/-- C8: On the empty response sequence, `analyzeConsensus` returns the
all-empty analysis and `generateInsights` returns exactly the single
insight `No responses to analyze.`. -/
theorem empty_input_analysis :
    analyzeConsensus [] =
      { groups := [], totalResponses := 0, consensusLevel := 0,
        diversity := 0, topResponse := "" } ∧
    generateInsights (analyzeConsensus []) = ["No responses to analyze."] := by
  decide

/-- C1 counterexample: for the responses `"abcd !"` and `"! abcd"` the
claim's similarity formula, applied to the representative name
`"abcd "` and the incoming normalized text `" abcd"` directly, is
3/5 < 0.8, so the claim's rule puts them in two groups — but the code's
`calculateSimilarity` normalizes its arguments again (stripping the
edge spaces), finds them equal, and merges them into one group. -/
theorem grouping_first_match_counterexample :
    (groupSimilarResponses
        [⟨"1", "m1", "abcd !", 0, none⟩, ⟨"2", "m2", "! abcd", 0, none⟩]).length = 1 ∧
    claimGroups [⟨"1", "m1", "abcd !", 0, none⟩, ⟨"2", "m2", "! abcd", 0, none⟩] =
      [("abcd ", [⟨"1", "m1", "abcd !", 0, none⟩]),
       (" abcd", [⟨"2", "m2", "! abcd", 0, none⟩])] ∧
    normalizeText "abcd !" = "abcd " ∧ normalizeText "! abcd" = " abcd" ∧
    claimSimilarity "abcd " " abcd" = 3/5 ∧
    calculateSimilarity "abcd " " abcd" = 1 := by
  decide

/-- C5 counterexample: the Vercel client returns a whitespace-only
completion text as a successful result (no empty-text check exists in
its `getCompletion`), contradicting the claim that such a completion is
never returned as a success. -/
theorem empty_text_success_counterexample :
    VercelAIGatewayClient.getCompletion "key" 30000 5 (.success "   " none) =
      .ok { text := "   ", timeMs := 5, usage := none } ∧
    jsTrim "   " = "" := by
  exact ⟨rfl, by decide⟩

/-- C6 counterexample: the single gateway call the Vercel client issues
per model is configured with `maxRetries := 3`, not 0 — the claim that
no retries are performed inside the Fetcher fails for this client. -/
theorem no_retry_counterexample :
    (VercelAIGatewayClient.generateTextCalls "openai/gpt-4o" "Hello"
        CompletionOptions.empty).map (fun a => a.maxRetries) = [3] ∧
    (3 : Nat) ≠ 0 := by
  decide

end

/-!  Whitespace-trimming lemmas used for the amended C5. -/

theorem dropWhile_all_eq_nil (p : Char → Bool) (x : List Char)
    (h : (x.dropWhile p).all p = true) : x.dropWhile p = [] := by
  induction x with
  | nil => rfl
  | cons c cs ih =>
    by_cases hc : p c = true
    · rw [List.dropWhile_cons, if_pos hc] at h ⊢
      exact ih h
    · rw [List.dropWhile_cons, if_neg hc] at h ⊢
      rw [List.all_cons, Bool.and_eq_true] at h
      exact absurd h.1 hc

theorem jsTrimList_all_space_eq_nil (l : List Char)
    (h : (jsTrimList l).all jsIsSpace = true) : jsTrimList l = [] := by
  unfold jsTrimList at h ⊢
  rw [List.all_reverse] at h
  rw [dropWhile_all_eq_nil _ _ h]
  rfl

/-- C5 amended: per-model error handling of the two `getCompletion`
implementations. The OpenRouter client turns a non-success status, an
empty `choices` array, and missing/empty/whitespace-only content into a
thrown error (hence a per-model `BatchOutcome.error`), and any success
it returns has non-whitespace text; the Vercel client turns thrown
gateway errors and timeouts into per-model errors but performs no
choice/empty-text check — it passes the gateway's text through as a
success unchanged. -/
theorem completion_error_handling
    (timeoutMs elapsedMs status : Nat) (errorMessage : String)
    (data : OpenRouterClient.CompletionResponse)
    (f : OpenRouterClient.FetchResult) (r : CompletionResult)
    (apiKey msg text : String) (usage : Option Usage)
    (hkey : jsTrim apiKey ≠ "")
    (hchoices : data.choices = [])
    (hok : OpenRouterClient.getCompletion timeoutMs elapsedMs f = .ok r) :
    (∃ m, OpenRouterClient.getCompletion timeoutMs elapsedMs
        (.httpError status errorMessage) = .error m) ∧
    (∃ m, OpenRouterClient.getCompletion timeoutMs elapsedMs
        (.success status data) = .error m) ∧
    ¬(r.text.data.all jsIsSpace = true) ∧
    VercelAIGatewayClient.getCompletion apiKey timeoutMs elapsedMs (.failure msg) =
      .error ("Failed to get completion: " ++ msg) ∧
    VercelAIGatewayClient.getCompletion apiKey timeoutMs elapsedMs
        (.success text usage) =
      .ok { text := text, timeMs := elapsedMs, usage := usage } := by
  refine ⟨⟨"Failed to get completion: OpenRouter API error (" ++ toString status ++
      "): " ++ errorMessage, rfl⟩,
    ⟨"Failed to get completion: No response choices returned from OpenRouter", ?_⟩,
    ?_, ?_, ?_⟩
  · simp [OpenRouterClient.getCompletion, hchoices]
  · cases f with
    | abort => simp [OpenRouterClient.getCompletion] at hok
    | failure m => simp [OpenRouterClient.getCompletion] at hok
    | httpError s em => simp [OpenRouterClient.getCompletion] at hok
    | success s d =>
      simp only [OpenRouterClient.getCompletion] at hok
      split at hok
      · simp at hok
      · split at hok
        · simp at hok
        · split at hok
          · simp at hok
          · rename_i content hcontent ht
            intro hall
            apply ht
            have hrtext : r.text = jsTrim content := by
              cases hok
              rfl
            rw [hrtext] at hall
            have hnil : jsTrimList content.data = [] :=
              jsTrimList_all_space_eq_nil content.data hall
            show (⟨jsTrimList content.data⟩ : String) = ""
            rw [hnil]
  · simp [VercelAIGatewayClient.getCompletion, hkey]
  · simp [VercelAIGatewayClient.getCompletion, hkey]

/-- Witness for the amended C5 at concrete inputs: a 502 response and an
empty-choices response from OpenRouter become per-model errors, the
OpenRouter success `" Paris "` yields the non-whitespace text
`"Paris"`, and the Vercel client converts a thrown `boom` while passing
a returned text through unchanged. -/
theorem completion_error_handling_witness :
    (∃ m, OpenRouterClient.getCompletion 30000 5
        (.httpError 502 "Bad Gateway") = .error m) ∧
    (∃ m, OpenRouterClient.getCompletion 30000 5
        (.success 200 ⟨[], ⟨1, 2, 3⟩⟩) = .error m) ∧
    ¬((("Paris" : String)).data.all jsIsSpace = true) ∧
    VercelAIGatewayClient.getCompletion "key" 30000 5 (.failure "boom") =
      .error ("Failed to get completion: " ++ "boom") ∧
    VercelAIGatewayClient.getCompletion "key" 30000 5 (.success "hi" none) =
      .ok { text := "hi", timeMs := 5, usage := none } :=
  completion_error_handling 30000 5 502 "Bad Gateway" ⟨[], ⟨1, 2, 3⟩⟩
    (.success 200 ⟨[⟨0, ⟨"assistant", some " Paris "⟩, "stop"⟩], ⟨1, 2, 3⟩⟩)
    ⟨"Paris", 5, some ⟨1, 2, 3⟩⟩ "key" "boom" "hi" none
    (by decide) rfl (by rfl)

/-- C6 amended: each client issues exactly one gateway call per model —
the OpenRouter client a single completion request with no retry loop,
the Vercel client a single `generateText` call — but the Vercel call is
configured with `maxRetries = 3`, delegating up to three retries of a
failing request to the gateway SDK instead of leaving retry policy to
the caller. -/
theorem single_attempt_with_sdk_retries (modelId prompt : String)
    (o : CompletionOptions) (a : GenerateTextArgs)
    (ha : a ∈ VercelAIGatewayClient.generateTextCalls modelId prompt o) :
    (OpenRouterClient.completionRequests modelId prompt o).length = 1 ∧
    (VercelAIGatewayClient.generateTextCalls modelId prompt o).length = 1 ∧
    a.maxRetries = 3 := by
  refine ⟨rfl, rfl, ?_⟩
  have := List.mem_singleton.mp ha
  rw [this]

/-- Witness for the amended C6 at a concrete call. -/
theorem single_attempt_with_sdk_retries_witness :
    (OpenRouterClient.completionRequests "openai/gpt-4o" "Hello"
        CompletionOptions.empty).length = 1 ∧
    (VercelAIGatewayClient.generateTextCalls "openai/gpt-4o" "Hello"
        CompletionOptions.empty).length = 1 ∧
    ({ model := "openai/gpt-4o", system := defaultSystemPrompt,
       prompt := "Hello", temperature := 0.7, maxRetries := 3,
       timeoutMs := 30000 } : GenerateTextArgs).maxRetries = 3 :=
  single_attempt_with_sdk_retries "openai/gpt-4o" "Hello"
    CompletionOptions.empty _ (List.mem_singleton.mpr rfl)

/-!  The grouping refinement (amended C1). -/

theorem map_insertIntoGroups (gs : List ConsensusGroup) (r : Response) (nt : String) :
    (insertIntoGroups gs r nt).map (fun g => (g.groupName, g.responses)) =
      claimAssignWith calculateSimilarity
        (gs.map (fun g => (g.groupName, g.responses))) r nt := by
  induction gs with
  | nil => rfl
  | cons g gs ih =>
    simp only [insertIntoGroups, List.map_cons, claimAssignWith, SIMILARITY_THRESHOLD]
    by_cases h : calculateSimilarity g.groupName nt ≥ (0.8 : ℚ)
    · rw [if_pos h, if_pos h]
      rfl
    · rw [if_neg h, if_neg h]
      simp only [List.map_cons]
      rw [ih]

theorem map_foldl_groups (rs : List Response) (acc : List ConsensusGroup) :
    ((rs.foldl (fun gs r => insertIntoGroups gs r (normalizeText r.response_text)) acc).map
        (fun g => (g.groupName, g.responses))) =
      rs.foldl
        (fun gs r => claimAssignWith calculateSimilarity gs r (normalizeText r.response_text))
        (acc.map (fun g => (g.groupName, g.responses))) := by
  induction rs generalizing acc with
  | nil => rfl
  | cons r rs ih =>
    simp only [List.foldl]
    rw [ih, map_insertIntoGroups]

/-- C1 amended: the grouping of `groupSimilarResponses` follows the
claim's first-match rule with the similarity function taken to be the
code's `calculateSimilarity` — which normalizes both of its arguments
again before applying the `1 - distance/maxLength` formula (the claim's
direct formula differs on normalized texts that keep an edge space):
the groups, projected to representative name and member responses,
equal the claim-side fold, and two responses whose `calculateSimilarity`
is exactly 0.8 land in the same group. -/
theorem grouping_first_match_amended (rs : List Response) (r1 r2 : Response)
    (h : calculateSimilarity (normalizeText r1.response_text)
        (normalizeText r2.response_text) = 0.8) :
    (groupSimilarResponses rs).map (fun g => (g.groupName, g.responses)) =
      claimGroupsWith calculateSimilarity rs ∧
    (groupSimilarResponses [r1, r2]).length = 1 := by
  constructor
  · unfold groupSimilarResponses claimGroupsWith
    rw [List.map_map]
    exact map_foldl_groups rs []
  · have hge : calculateSimilarity (normalizeText r1.response_text)
        (normalizeText r2.response_text) ≥ (0.8 : ℚ) := le_of_eq h.symm
    unfold groupSimilarResponses
    simp only [List.foldl, List.length_map, insertIntoGroups, pushToGroup, newGroup,
      SIMILARITY_THRESHOLD]
    rw [if_pos hge]
    rfl

section

attribute [local semireducible] Rat.mul Rat.add Rat.sub Rat.inv Rat.ofScientific

/-- Witness for the amended C1: applied to the worked example and to
the exactly-0.8-similar pair `"abcde"` / `"abcdx"` (distance 1, maximum
length 5). -/
theorem grouping_first_match_amended_witness :
    ((groupSimilarResponses parisResponses).map (fun g => (g.groupName, g.responses)) =
      claimGroupsWith calculateSimilarity parisResponses) ∧
    (groupSimilarResponses
      [⟨"w1", "m", "abcde", 0, none⟩, ⟨"w2", "m", "abcdx", 0, none⟩]).length = 1 :=
  grouping_first_match_amended parisResponses
    ⟨"w1", "m", "abcde", 0, none⟩ ⟨"w2", "m", "abcdx", 0, none⟩ (by decide)

end

/-!  Partition invariants of the grouping (C3). -/

theorem flatten_insertIntoGroups (gs : List ConsensusGroup) (r : Response) (nt : String) :
    ((insertIntoGroups gs r nt).map (fun g => g.responses)).flatten.Perm
      ((gs.map (fun g => g.responses)).flatten ++ [r]) := by
  induction gs with
  | nil =>
    simp [insertIntoGroups, pushToGroup, newGroup]
  | cons g gs ih =>
    simp only [insertIntoGroups]
    by_cases h : calculateSimilarity g.groupName nt ≥ SIMILARITY_THRESHOLD
    · rw [if_pos h]
      simp only [List.map_cons, List.flatten_cons, pushToGroup]
      rw [List.append_assoc, List.append_assoc]
      exact List.Perm.append_left _ List.perm_append_comm
    · rw [if_neg h]
      simp only [List.map_cons, List.flatten_cons]
      rw [List.append_assoc]
      exact List.Perm.append_left _ ih

theorem flatten_foldl_groups (rs : List Response) (acc : List ConsensusGroup) :
    ((rs.foldl (fun gs r => insertIntoGroups gs r (normalizeText r.response_text)) acc).map
        (fun g => g.responses)).flatten.Perm
      ((acc.map (fun g => g.responses)).flatten ++ rs) := by
  induction rs generalizing acc with
  | nil => simp
  | cons r rs ih =>
    simp only [List.foldl]
    refine (ih _).trans ?_
    refine ((flatten_insertIntoGroups acc r (normalizeText r.response_text)).append_right
      rs).trans ?_
    rw [List.append_assoc]
    exact List.Perm.refl _

theorem counts_insertIntoGroups (gs : List ConsensusGroup) (r : Response) (nt : String)
    (h : ∀ g ∈ gs, g.count = g.responses.length) :
    ∀ g ∈ insertIntoGroups gs r nt, g.count = g.responses.length := by
  induction gs with
  | nil =>
    intro g hg
    simp only [insertIntoGroups, List.mem_singleton] at hg
    subst hg
    simp [pushToGroup, newGroup]
  | cons g0 gs ih =>
    intro g hg
    simp only [insertIntoGroups] at hg
    by_cases hc : calculateSimilarity g0.groupName nt ≥ SIMILARITY_THRESHOLD
    · rw [if_pos hc] at hg
      rcases List.mem_cons.mp hg with hg | hg
      · subst hg
        have h0 := h g0 (List.mem_cons_self g0 gs)
        simp [pushToGroup, h0]
      · exact h g (List.mem_cons_of_mem _ hg)
    · rw [if_neg hc] at hg
      rcases List.mem_cons.mp hg with hg | hg
      · subst hg
        exact h g (List.mem_cons_self g gs)
      · exact ih (fun g' hg' => h g' (List.mem_cons_of_mem _ hg')) g hg

theorem counts_foldl_groups (rs : List Response) (acc : List ConsensusGroup)
    (h : ∀ g ∈ acc, g.count = g.responses.length) :
    ∀ g ∈ rs.foldl (fun gs r => insertIntoGroups gs r (normalizeText r.response_text)) acc,
      g.count = g.responses.length := by
  induction rs generalizing acc with
  | nil => exact h
  | cons r rs ih =>
    simp only [List.foldl]
    exact ih _ (counts_insertIntoGroups acc r (normalizeText r.response_text) h)

theorem insertByCountDesc_perm (g : ConsensusGroup) (l : List ConsensusGroup) :
    (insertByCountDesc g l).Perm (g :: l) := by
  induction l with
  | nil => exact List.Perm.refl _
  | cons h t ih =>
    simp only [insertByCountDesc]
    by_cases hc : g.count < h.count
    · rw [if_pos hc]
      exact (ih.cons h).trans (List.Perm.swap _ _ _)
    · rw [if_neg hc]

theorem sortByCountDesc_perm (l : List ConsensusGroup) :
    (sortByCountDesc l).Perm l := by
  induction l with
  | nil => exact List.Perm.refl _
  | cons g gs ih =>
    exact (insertByCountDesc_perm g (sortByCountDesc gs)).trans (ih.cons g)

theorem map_enumFrom_colors {α : Type} (f : ConsensusGroup → α)
    (hf : ∀ g c, f { g with color := c } = f g) (l : List ConsensusGroup) (n : Nat) :
    ((List.enumFrom n l).map
        (fun p => ({ p.2 with color := COLORS.getD (p.1 % COLORS.length) "" } :
          ConsensusGroup))).map f = l.map f := by
  induction l generalizing n with
  | nil => rfl
  | cons g gs ih =>
    simp only [List.enumFrom, List.map_cons]
    rw [hf, ih]

theorem assignColors_map {α : Type} (f : ConsensusGroup → α)
    (hf : ∀ g c, f { g with color := c } = f g) (l : List ConsensusGroup) :
    (assignColors l).map f = l.map f :=
  map_enumFrom_colors f hf l 0

theorem counts_of_pairs_eq {l l' : List ConsensusGroup}
    (h : l.map (fun g => (g.count, g.responses.length)) =
      l'.map (fun g => (g.count, g.responses.length)))
    (h' : ∀ g ∈ l', g.count = g.responses.length) :
    ∀ g ∈ l, g.count = g.responses.length := by
  intro g hg
  have hm : (g.count, g.responses.length) ∈
      l'.map (fun g => (g.count, g.responses.length)) := by
    rw [← h]
    exact List.mem_map_of_mem _ hg
  obtain ⟨g', hg', heq⟩ := List.mem_map.mp hm
  have h1 := h' g' hg'
  rw [Prod.mk.injEq] at heq
  rw [← heq.1, ← heq.2]
  exact h1

/-- C3: the groups of `analyzeConsensus` partition the input. Every
group's `count` equals the length of its member list, the concatenated
member lists are a permutation of the input responses (so each input
response belongs to exactly one group), and the group counts sum to the
number of input responses. -/
theorem consensus_partition (rs : List Response) :
    ((analyzeConsensus rs).groups.all (fun g => g.count == g.responses.length) = true) ∧
    (((analyzeConsensus rs).groups.map (fun g => g.responses)).flatten.Perm rs) ∧
    (((analyzeConsensus rs).groups.map (fun g => g.count)).sum = rs.length) := by
  by_cases h0 : rs.length = 0
  · have hnil : rs = [] := List.length_eq_zero.mp h0
    subst hnil
    exact ⟨rfl, List.Perm.refl _, rfl⟩
  · have hgroups : (analyzeConsensus rs).groups =
        assignColors (sortByCountDesc (groupSimilarResponses rs)) := by
      unfold analyzeConsensus
      rw [if_neg h0]
    rw [hgroups]
    -- facts about the raw grouping
    have hcounts0 : ∀ g ∈ groupSimilarResponses rs, g.count = g.responses.length := by
      unfold groupSimilarResponses
      intro g hg
      obtain ⟨g', hg', rfl⟩ := List.mem_map.mp hg
      exact counts_foldl_groups rs [] (by intro g hgmem; cases hgmem) g' hg'
    have hflat0 : ((groupSimilarResponses rs).map (fun g => g.responses)).flatten.Perm rs := by
      unfold groupSimilarResponses
      rw [List.map_map]
      exact flatten_foldl_groups rs []
    -- transport through the sort
    have hsort := sortByCountDesc_perm (groupSimilarResponses rs)
    have hcounts1 : ∀ g ∈ sortByCountDesc (groupSimilarResponses rs),
        g.count = g.responses.length := fun g hg => hcounts0 g (hsort.subset hg)
    have hflat1 : ((sortByCountDesc (groupSimilarResponses rs)).map
        (fun g => g.responses)).flatten.Perm rs :=
      ((hsort.map (fun g => g.responses)).flatten).trans hflat0
    -- transport through the color assignment
    have hpairs : (assignColors (sortByCountDesc (groupSimilarResponses rs))).map
          (fun g => (g.count, g.responses.length)) =
        (sortByCountDesc (groupSimilarResponses rs)).map
          (fun g => (g.count, g.responses.length)) :=
      assignColors_map (fun g => (g.count, g.responses.length)) (fun g c => rfl) _
    have hcounts2 : ∀ g ∈ assignColors (sortByCountDesc (groupSimilarResponses rs)),
        g.count = g.responses.length := counts_of_pairs_eq hpairs hcounts1
    have hrespmap : (assignColors (sortByCountDesc (groupSimilarResponses rs))).map
          (fun g => g.responses) =
        (sortByCountDesc (groupSimilarResponses rs)).map (fun g => g.responses) :=
      assignColors_map (fun g => g.responses) (fun g c => rfl) _
    have hflat2 : ((assignColors (sortByCountDesc (groupSimilarResponses rs))).map
        (fun g => g.responses)).flatten.Perm rs := by
      rw [hrespmap]
      exact hflat1
    refine ⟨?_, hflat2, ?_⟩
    · rw [List.all_eq_true]
      intro g hg
      exact beq_iff_eq.mpr (hcounts2 g hg)
    · have hcong : (assignColors (sortByCountDesc (groupSimilarResponses rs))).map
            (fun g => g.count) =
          (assignColors (sortByCountDesc (groupSimilarResponses rs))).map
            (fun g => g.responses.length) :=
        List.map_eq_map_iff.mpr (fun g hg => hcounts2 g hg)
      rw [hcong]
      have hlen : ((assignColors (sortByCountDesc (groupSimilarResponses rs))).map
          (fun g => g.responses)).flatten.length = rs.length := hflat2.length_eq
      rw [← hlen, List.length_flatten, List.map_map]
      rfl

end BmarkApp
